import Mathlib

/-!
Verification of `main.py` from `microfluidics-daily`: a fetch–filter–render
pipeline.  The Python code is shallowly embedded: JSON values (as produced by
`response.json()`) are the inductive type `Json`; Python exceptions are the
`PyErr` error type of an `Except` monad; `dict.get(key, default)` becomes
`pyGet`, which fails with an `AttributeError` when the receiver is not a dict
(exactly as in Python, where e.g. `None.get(...)` raises); Python truthiness
becomes `pyTruthy`.  The HTTP request and JSON parse are modelled by the
`Except PyErr Json` input of `fetch_papers`: an `.error` input stands for a
request or parse that raised.  Case mapping is modelled at the ASCII level
(`str.lower` on the A–Z range), which covers the configured allow-list.
-/

/-- JSON values, the result of Python's `response.json()`.  Numbers are
modelled as integers (no claim depends on numeric values). -/
inductive Json where
  | null : Json
  | bool : Bool → Json
  | num : Int → Json
  | str : String → Json
  | arr : List Json → Json
  | obj : List (String × Json) → Json

/-- Python exceptions that the embedded pipeline can raise. -/
inductive PyErr where
  | attributeError : PyErr
  | typeError : PyErr
  | requestError : String → PyErr
deriving DecidableEq

/-- The reduced record shape built by `fetch_papers` (the Python dict literal
with keys `title`, `journal`, `date`, `link`, `abstract`). -/
structure Paper where
  title : Json
  journal : Json
  date : Json
  link : Json
  abstract : Json

/-- First-match lookup in an association list with a default, the semantics of
`dict.get(key, default)` on a dict (Python dicts have unique keys, so
first-match agrees). A key stored with value `null` is returned as `null`,
not replaced by the default. -/
def lookupD : List (String × Json) → String → Json → Json
  | [], _, d => d
  | (k, v) :: rest, key, d => if k = key then v else lookupD rest key d

/-- Python `x.get(key, default)`: succeeds on a dict, raises
`AttributeError` on any other receiver (including `None`). -/
def pyGet : Json → String → Json → Except PyErr Json
  | .obj fields, key, d => .ok (lookupD fields key d)
  | _, _, _ => .error .attributeError

/-- Total variant of `pyGet` used to describe the fields of a constructed
paper; it agrees with `pyGet` on dicts. -/
def pyLookup (j : Json) (key : String) (d : Json) : Json :=
  match j with
  | .obj fields => lookupD fields key d
  | _ => d

/-- Python truthiness on JSON values: `None`, `False`, `0`, `""`, `[]` and
an empty dict are falsy, everything else is truthy. -/
def pyTruthy : Json → Bool
  | .null => false
  | .bool b => b
  | .num n => n != 0
  | .str s => !s.isEmpty
  | .arr xs => !xs.isEmpty
  | .obj fields => !fields.isEmpty

/-- Python `for item in x`: a list iterates its elements, a string its characters
(each a one-character string), a dict its keys; other values raise
`TypeError`. -/
def pyIter : Json → Except PyErr (List Json)
  | .arr xs => .ok xs
  | .str s => .ok (s.data.map fun c => .str (String.mk [c]))
  | .obj fields => .ok (fields.map fun kv => .str kv.1)
  | _ => .error .typeError

/-- Python `str.lower` on one character, modelled on the ASCII range (the allow-list
is ASCII). -/
def lowerChar (c : Char) : Char :=
  if 'A' ≤ c ∧ c ≤ 'Z' then Char.ofNat (c.toNat + 32) else c

/-- Python `s.lower()` for a string. -/
def lowerStr (s : String) : String :=
  String.mk (s.data.map lowerChar)

/-- Python `x.lower()`: succeeds on a string, raises `AttributeError` otherwise. -/
def pyLower : Json → Except PyErr String
  | .str s => .ok (lowerStr s)
  | _ => .error .attributeError

/-- Whether `needle` occurs contiguously at the head of `hay`. -/
def firstMatches : List Char → List Char → Bool
  | [], _ => true
  | _ :: _, [] => false
  | a :: as, b :: bs => a == b && firstMatches as bs

/-- Python `needle in hay` on strings: contiguous substring containment. -/
def containsStr (needle hay : String) : Bool :=
  go needle.data hay.data
where
  go (n : List Char) : List Char → Bool
    | [] => firstMatches n []
    | c :: rest => firstMatches n (c :: rest) || go n rest

/-- The constant `KEYWORDS` from `main.py`. -/
def KEYWORDS : String := "microfluidic"

/-- The constant `TARGET_JOURNALS` from `main.py`. -/
def TARGET_JOURNALS : List String :=
  [ "Nature",
    "Science",
    "Proceedings of the National Academy of Sciences",
    "Nature Communications",
    "Science Advances" ]

/-- The allow-list test applied to a journal display name:
`any(tj.lower() in journal_name.lower() for tj in TARGET_JOURNALS)`. -/
def isTopJournal (journalName : String) : Bool :=
  TARGET_JOURNALS.any fun tj => containsStr (lowerStr tj) (lowerStr journalName)

/-- The loop body of `fetch_papers` on one element of `results`:
`ok none` = record skipped, `ok (some p)` = paper appended, `error` = a raised
exception (caught by the enclosing `try`). -/
def processItem (item : Json) : Except PyErr (Option Paper) := do
  let pl ← pyGet item "primary_location" (.obj [])
  let source ← pyGet pl "source" (.obj [])
  if !pyTruthy source then
    return none
  else
    let journalName ← pyGet source "display_name" (.str "")
    let jLow ← pyLower journalName
    if TARGET_JOURNALS.any (fun tj => containsStr (lowerStr tj) jLow) then
      let title ← pyGet item "title" .null
      let date ← pyGet item "publication_date" .null
      let link ← pyGet item "doi" .null
      let abs ← pyGet item "abstract_inverted_index" .null
      return some ⟨title, journalName, date, link, abs⟩
    else
      return none

/-- The `for` loop of `fetch_papers`: papers are appended in iteration order;
the first raised exception aborts the loop. -/
def processResults : List Json → Except PyErr (List Paper)
  | [] => .ok []
  | item :: rest => do
    let r ← processItem item
    let ps ← processResults rest
    match r with
    | none => pure ps
    | some p => pure (p :: ps)

/-- The body of the `try` block of `fetch_papers`: take the (possibly failed)
request/parse result, read `data.get('results', [])`, iterate, process. -/
def fetchCore (resp : Except PyErr Json) : Except PyErr (List Paper) := do
  let data ← resp
  let results ← pyGet data "results" (.arr [])
  let items ← pyIter results
  processResults items

/-- Abstract rendering of `str(e)` for an exception (the exact Python message
text is interpreter detail; only its presence matters to the spec). -/
def pyErrMsg : PyErr → String
  | .attributeError => "AttributeError"
  | .typeError => "TypeError"
  | .requestError m => m

/-- The diagnostic line printed by the `except` handler:
`f"Error fetching data: {e}"`. -/
def errLine (e : PyErr) : String :=
  "Error fetching data: " ++ pyErrMsg e

/-- Function `fetch_papers`: the `try/except` wrapper — any exception from the request,
the parse, or record processing yields the empty list. -/
def fetch_papers (resp : Except PyErr Json) : List Paper :=
  match fetchCore resp with
  | .ok ps => ps
  | .error _ => []

/-- The lines `fetch_papers` prints to stdout: exactly one diagnostic on
failure, nothing on success. -/
def fetch_log (resp : Except PyErr Json) : List String :=
  match fetchCore resp with
  | .ok _ => []
  | .error e => [errLine e]

/-- A response body whose `results` key holds the given record array. -/
def mkResults (items : List Json) : Json :=
  .obj [("results", .arr items)]

/-- The two nested lookups `item.get('primary_location', {}).get('source', {})`. -/
def getSource (item : Json) : Except PyErr Json := do
  let pl ← pyGet item "primary_location" (.obj [])
  pyGet pl "source" (.obj [])

/-- Predicate: `item` reaches the allow-list filter with journal display name `j`: the
source descriptor lookup succeeds, is truthy, and yields display name `j`
(defaulting to the empty string when the key is absent). -/
def hasJournal (item : Json) (j : String) : Prop :=
  ∃ src, getSource item = .ok src ∧ pyTruthy src = true ∧
    pyGet src "display_name" (.str "") = .ok (.str j)

/-- The paper `fetch_papers` builds from a record whose journal display name
is the value `jn`. -/
def mkPaper (item : Json) (jn : Json) : Paper :=
  { title := pyLookup item "title" .null
    journal := jn
    date := pyLookup item "publication_date" .null
    link := pyLookup item "doi" .null
    abstract := pyLookup item "abstract_inverted_index" .null }

/-- The contribution of one record to the output list: `some p` when a paper
is appended, `none` when the record is skipped or raises. -/
def itemResult (item : Json) : Option Paper :=
  match processItem item with
  | .ok r => r
  | .error _ => none

/-- Zero-padded two-digit decimal, the month/day fields of `str(date)`. -/
def pad2 (n : Nat) : String :=
  if n < 10 then "0" ++ toString n else toString n

/-- Gregorian civil date from a day count since 1970-01-01 (the proleptic
calendar `datetime.date` uses), as a `(year, month, day)` triple. -/
def civilFromDays (z : Nat) : Nat × Nat × Nat :=
  let z' := z + 719468
  let era := z' / 146097
  let doe := z' % 146097
  let yoe := (doe - doe / 1460 + doe / 36524 - doe / 146097) / 365
  let y := yoe + era * 400
  let doy := doe - (365 * yoe + yoe / 4 - yoe / 100)
  let mp := (5 * doy + 2) / 153
  let d := doy - (153 * mp + 2) / 5 + 1
  let m := if mp < 10 then mp + 3 else mp - 9
  (if m ≤ 2 then y + 1 else y, m, d)

/-- Python `str(d)` for a `datetime.date` held as a day count since 1970-01-01:
the ISO `YYYY-MM-DD` rendering. -/
def isoOfDays (z : Nat) : String :=
  let c := civilFromDays z
  toString c.1 ++ "-" ++ pad2 c.2.1 ++ "-" ++ pad2 c.2.2

/-- The f-string of `fetch_papers` building the request URL from the
already-rendered lower bound date. -/
def buildUrl (sevenDaysAgo : String) : String :=
  "https://api.openalex.org/works?filter=default.search:" ++ KEYWORDS ++
    ",from_publication_date:" ++ sevenDaysAgo ++
    "&per-page=50&sort=publication_date:desc"

/-- The URL `fetch_papers` requests, as a function of the current date
(a day count since 1970-01-01): `today - datetime.timedelta(days=7)`
rendered in ISO form and spliced into the query string. -/
def fetchUrl (todayDays : Nat) : String :=
  buildUrl (isoOfDays (todayDays - 7))

/-- Python `str(x)` as interpolated by `{{ ... }}` (Jinja2 `Template` with default
options: no autoescaping).  Strings are inserted verbatim, `None` renders as
`None`.  Container values never reach an interpolation point in this template
(the `abstract` field is not referenced), so their Python repr is abstracted
to a fixed token. -/
def jinjaShow : Json → String
  | .str s => s
  | .null => "None"
  | .bool b => if b then "True" else "False"
  | .num n => toString n
  | .arr _ => "[...]"
  | .obj _ => "\x7b...\x7d"

/-- First part of the fixed text before `{{ today }}` (split into three
pieces only to keep each literal small for kernel evaluation; their
concatenation `headA` is the template text). -/
def headA1 : String :=
  "\n    <!DOCTYPE html>\n    <html lang=\"zh-CN\">\n    <head>\n        <meta charset=\"UTF-8\">\n        <meta name=\"viewport\" content=\"width=device-width, initial-scale=1.0\">\n        <title>微流控每日精选 (Top Journals)</title>\n"

/-- Second part of the fixed text before `{{ today }}`. -/
def headA2 : String :=
  "        <script src=\"https://cdn.tailwindcss.com\"></script>\n    </head>\n    <body class=\"bg-gray-50 text-gray-800\">\n        <div class=\"max-w-3xl mx-auto py-10 px-4\">\n"

/-- Third part of the fixed text before `{{ today }}`. -/
def headA3 : String :=
  "            <header class=\"mb-10 text-center\">\n                <h1 class=\"text-3xl font-bold text-blue-800 mb-2\">🧬 Daily Microfluidics Picks</h1>\n                <p class=\"text-sm text-gray-500\">Sources: Nature, Science, PNAS | Updated: "

/-- Template text from the start of the document through `Updated: `,
immediately before the `{{ today }}` interpolation. -/
def headA : String := headA1 ++ headA2 ++ headA3

/-- Template text between `{{ today }}` and the `if papers` block tag. -/
def headB : String :=
  "</p>\n            </header>\n\n            "

/-- Template text of the non-empty branch before the loop body. -/
def ifA : String :=
  "\n                <div class=\"space-y-6\">\n                "

/-- Template text of the non-empty branch after the loop body. -/
def ifB : String :=
  "\n                </div>\n            "

/-- Loop-body text up to the `{{ paper.journal }}` interpolation. -/
def cardA : String :=
  "\n                    <div class=\"bg-white p-6 rounded-lg shadow-md border-l-4 border-blue-500 hover:shadow-lg transition\">\n                        <div class=\"flex justify-between items-start mb-2\">\n                            <span class=\"bg-blue-100 text-blue-800 text-xs font-semibold px-2.5 py-0.5 rounded\">"

/-- Loop-body text between `{{ paper.journal }}` and `{{ paper.date }}`. -/
def cardB : String :=
  "</span>\n                            <span class=\"text-gray-400 text-sm\">"

/-- Loop-body text between `{{ paper.date }}` and the title anchor's
`{{ paper.link }}`. -/
def cardC : String :=
  "</span>\n                        </div>\n                        <h2 class=\"text-xl font-bold mb-3\">\n                            <a href=\""

/-- Loop-body text between the title anchor's href and `{{ paper.title }}`. -/
def cardD : String :=
  "\" target=\"_blank\" class=\"hover:text-blue-600 hover:underline\">"

/-- Loop-body text between `{{ paper.title }}` and the read link's
`{{ paper.link }}`. -/
def cardE : String :=
  "</a>\n                        </h2>\n                        <a href=\""

/-- Loop-body text after the read link's href, to the end of the card. -/
def cardF : String :=
  "\" target=\"_blank\" class=\"text-sm text-blue-500 hover:text-blue-700 font-medium\">Read Paper &rarr;</a>\n                    </div>\n                "

/-- The text of the empty branch (between the `else` and `endif` tags). -/
def elseBlock : String :=
  "\n                <div class=\"text-center py-20 bg-white rounded-lg shadow\">\n                    <p class=\"text-gray-500\">今天这些期刊没有微流控相关的新论文发布。</p>\n                </div>\n            "

/-- Template text after the `endif` tag, to the end of the document. -/
def tailB : String :=
  "\n\n            <footer class=\"mt-10 text-center text-xs text-gray-400\">\n                Powered by OpenAlex API & GitHub Actions\n            </footer>\n        </div>\n    </body>\n    </html>\n    "

/-- One rendered card: the loop body with the four interpolations filled in
from the paper (the link appears twice: title anchor and read link). -/
def cardBlock (p : Paper) : String :=
  cardA ++ jinjaShow p.journal ++ cardB ++ jinjaShow p.date ++ cardC ++
    jinjaShow p.link ++ cardD ++ jinjaShow p.title ++ cardE ++
    jinjaShow p.link ++ cardF

/-- The call `template.render(papers=papers, today=...)`: the full rendered document.
`{% if papers %}` takes the card branch exactly when the list is non-empty
(Python truthiness of a list). -/
def renderPage (papers : List Paper) (today : String) : String :=
  headA ++ today ++ headB ++
    (if papers.isEmpty then elseBlock
     else ifA ++ String.join (papers.map cardBlock) ++ ifB) ++
    tailB

/-- A filesystem: file name to contents (`none` = file absent). -/
def FileSys : Type := String → Option String

/-- Python `open(name, "w")` followed by a full write: truncates whatever was there
and stores exactly the new content; all other files untouched. -/
def pyWriteFile (fs : FileSys) (name content : String) : FileSys :=
  fun n => if n = name then some content else fs n

/-- Function `generate_html(papers)`: renders the template with the paper list and
`datetime.date.today()` (a day count since 1970-01-01) and overwrites
`index.html` in the working directory. -/
def generate_html (papers : List Paper) (todayDays : Nat) (fs : FileSys) : FileSys :=
  pyWriteFile fs "index.html" (renderPage papers (isoOfDays todayDays))

/-- The control path of `generate_html` with its two effectful steps —
template rendering and the file write — made fallible.  The function body
contains no `try`/`except`, so the steps compose directly in the error
monad. -/
def generate_htmlRun (render : Except PyErr String) (write : String → Except PyErr FileSys) : Except PyErr FileSys := do
  let htmlContent ← render
  write htmlContent

/-- Number of occurrences of `needle` at distinct start positions of `hay`. -/
def countOccAux (n : List Char) : List Char → Nat
  | [] => if firstMatches n [] then 1 else 0
  | c :: rest => (if firstMatches n (c :: rest) then 1 else 0) + countOccAux n rest

/-- Number of occurrences of the substring `needle` in `hay`. -/
def countOcc (needle hay : String) : Nat :=
  countOccAux needle.data hay.data

/-- Occurrences of `n` that start inside the segment `seg`, in the string
`seg ++ tail` (a match may extend past the segment into `tail`). -/
def cntFrom (n : List Char) : List Char → List Char → Nat
  | [], _ => 0
  | c :: rest, tail => (if firstMatches n (c :: (rest ++ tail)) then 1 else 0) + cntFrom n rest tail

/-- Concatenation of a list of string segments. -/
def chainStr : List String → String
  | [] => ""
  | s :: rest => s ++ chainStr rest

/-- Occurrence count of `n` in `chainStr l`, computed segment by segment so
that each evaluation step stays shallow. -/
def cntSegs (n : List Char) : List String → Nat
  | [] => countOccAux n []
  | s :: rest => cntFrom n s.data (chainStr rest).data + cntSegs n rest

/-- The opening tag of a rendered card, a marker occurring exactly once per
card and nowhere else in the fixed template text. -/
def cardMarker : String :=
  "<div class=\"bg-white p-6 rounded-lg shadow-md border-l-4 border-blue-500 hover:shadow-lg transition\">"

/-- The placeholder sentence of the empty branch. -/
def noPapersMarker : String :=
  "今天这些期刊没有微流控相关的新论文发布。"

/-- The sample record of the spec's testable property. -/
def samplePaper : Paper :=
  { title := .str "Chip Flow Study"
    journal := .str "Nature Communications"
    date := .str "2024-05-01"
    link := .str "https://doi.org/10.1000/x"
    abstract := .null }

/-- The title anchor the spec expects for the sample record. -/
def sampleAnchor : String :=
  "<a href=\"https://doi.org/10.1000/x\" target=\"_blank\" class=\"hover:text-blue-600 hover:underline\">Chip Flow Study</a>"


/-- The `today` value used in the concrete rendering checks. -/
def sampleToday : String := "2024-05-01"

/-- A second concrete paper, to check the two-card rendering. -/
def paper2 : Paper :=
  { title := .str "Droplet Sorting"
    journal := .str "Science Advances"
    date := .str "2024-05-02"
    link := .str "https://doi.org/10.1000/z"
    abstract := .null }

/-- A complete API record whose journal is `Nature Communications`; its
projection is exactly `samplePaper`. -/
def natureItem : Json :=
  .obj [("primary_location", .obj [("source", .obj [("display_name", .str "Nature Communications")])]),
        ("title", .str "Chip Flow Study"),
        ("publication_date", .str "2024-05-01"),
        ("doi", .str "https://doi.org/10.1000/x"),
        ("abstract_inverted_index", .null)]

/-- A record whose journal name contains `Nature` only as a proper substring
(the spec's looseness example). -/
def superNatureItem : Json :=
  .obj [("primary_location", .obj [("source", .obj [("display_name", .str "Super Nature Journal")])]),
        ("title", .str "Acoustofluidic Tweezers"),
        ("publication_date", .str "2024-05-02"),
        ("doi", .str "https://doi.org/10.1000/y"),
        ("abstract_inverted_index", .null)]

/-- A record from a journal not on the allow-list. -/
def labChipItem : Json :=
  .obj [("primary_location", .obj [("source", .obj [("display_name", .str "Lab on a Chip")])]),
        ("title", .str "Micromixer Design"),
        ("publication_date", .str "2024-05-03"),
        ("doi", .str "https://doi.org/10.1000/w"),
        ("abstract_inverted_index", .null)]

/-- A record whose `primary_location` key holds JSON `null` (a shape the
OpenAlex API can produce): `None.get('source', {})` raises. -/
def plNullItem : Json :=
  .obj [("primary_location", .null)]

/-- A record with no `primary_location` key at all: both lookups default and
the falsy `{}` source makes the loop skip it. -/
def noLocItem : Json :=
  .obj [("title", .str "Unplaced Work")]

/-- A record whose source descriptor is present and truthy but has no
`display_name` key, so the journal name defaults to the empty string. -/
def noNameItem : Json :=
  .obj [("primary_location", .obj [("source", .obj [("id", .str "S123")])])]

/-- The filesystem with no files, for concrete write checks. -/
def fsEmpty : FileSys := fun _ => none

set_option maxRecDepth 10000

example : countOcc "aba" "ababa" = 2 := by decide
example : isoOfDays 0 = "1970-01-01" := by decide
example : isoOfDays (19851 - 7) = "2024-05-01" := by decide
example : lowerStr "Nature Communications" = "nature communications" := by decide
example : isTopJournal "Super Nature Journal" = true := by decide
example : isTopJournal "Lab on a Chip" = false := by decide

theorem pybind_ok {α β : Type} (a : α) (f : α → Except PyErr β) :
    (Except.ok a >>= f) = f a := rfl

theorem pybind_error {α β : Type} (e : PyErr) (f : α → Except PyErr β) :
    ((Except.error e : Except PyErr α) >>= f) = Except.error e := rfl

theorem pyGet_ok_obj {item : Json} {k : String} {d v : Json}
    (h : pyGet item k d = .ok v) : ∃ fs, item = Json.obj fs := by
  cases item <;> first | exact ⟨_, rfl⟩ | simp [pyGet] at h

theorem fetchCore_mkResults (l : List Json) :
    fetchCore (.ok (mkResults l)) = processResults l := rfl

theorem processItem_skip (item src : Json)
    (hsrc : getSource item = .ok src) (hfalsy : pyTruthy src = false) :
    processItem item = .ok none := by
  unfold getSource at hsrc
  cases h1 : pyGet item "primary_location" (.obj []) with
  | error e => rw [h1, pybind_error] at hsrc; exact absurd hsrc (by simp)
  | ok pl =>
    rw [h1, pybind_ok] at hsrc
    unfold processItem
    rw [h1, pybind_ok, hsrc, pybind_ok, hfalsy]
    rfl

theorem processItem_hasJournal (item : Json) (j : String) (hj : hasJournal item j) :
    processItem item = .ok (if isTopJournal j then some (mkPaper item (.str j)) else none) := by
  obtain ⟨src, hsrc, htr, hname⟩ := hj
  unfold getSource at hsrc
  cases h1 : pyGet item "primary_location" (.obj []) with
  | error e => rw [h1, pybind_error] at hsrc; exact absurd hsrc (by simp)
  | ok pl =>
    rw [h1, pybind_ok] at hsrc
    obtain ⟨ifs, hitem⟩ := pyGet_ok_obj h1
    subst hitem
    unfold processItem
    rw [h1, pybind_ok, hsrc, pybind_ok, htr]
    simp only [Bool.not_true, Bool.false_eq_true, if_false]
    rw [hname, pybind_ok]
    simp only [pyLower, pybind_ok]
    simp only [pyGet, pybind_ok]
    by_cases htop : isTopJournal j
    · rw [show (TARGET_JOURNALS.any fun tj => containsStr (lowerStr tj) (lowerStr j)) = true from htop]
      simp [mkPaper, pyLookup, htop]
      rfl
    · rw [show (TARGET_JOURNALS.any fun tj => containsStr (lowerStr tj) (lowerStr j)) = false from by
        simpa [isTopJournal] using htop]
      simp [htop]
      rfl

theorem processItem_some (item : Json) (p : Paper)
    (h : processItem item = .ok (some p)) :
    ∃ j, p.journal = Json.str j ∧ isTopJournal j = true ∧
      p = mkPaper item (.str j) ∧ hasJournal item j := by
  unfold processItem at h
  cases h1 : pyGet item "primary_location" (.obj []) with
  | error e => rw [h1, pybind_error] at h; exact absurd h (by simp)
  | ok pl =>
    rw [h1, pybind_ok] at h
    cases h2 : pyGet pl "source" (.obj []) with
    | error e => rw [h2, pybind_error] at h; exact absurd h (by simp)
    | ok src =>
      rw [h2, pybind_ok] at h
      cases htr : pyTruthy src with
      | false => rw [htr] at h; simp [pure, Except.pure] at h
      | true =>
        rw [htr] at h
        simp only [Bool.not_true, Bool.false_eq_true, if_false] at h
        cases h3 : pyGet src "display_name" (.str "") with
        | error e => rw [h3, pybind_error] at h; exact absurd h (by simp)
        | ok jn =>
          rw [h3, pybind_ok] at h
          cases jn with
          | str j =>
            simp only [pyLower, pybind_ok] at h
            by_cases htop : (TARGET_JOURNALS.any fun tj => containsStr (lowerStr tj) (lowerStr j)) = true
            · rw [if_pos htop] at h
              obtain ⟨ifs, hitem⟩ := pyGet_ok_obj h1
              subst hitem
              simp only [pyGet, pybind_ok] at h
              have hp : some (⟨lookupD ifs "title" .null, .str j,
                  lookupD ifs "publication_date" .null, lookupD ifs "doi" .null,
                  lookupD ifs "abstract_inverted_index" .null⟩ : Paper) = some p := by
                exact Except.ok.inj h
              have hp2 := Option.some.inj hp
              refine ⟨j, ?_, htop, ?_, ?_⟩
              · rw [← hp2]
              · rw [← hp2]; simp [mkPaper, pyLookup]
              · exact ⟨src, by unfold getSource; rw [h1, pybind_ok, h2], htr, h3⟩
            · rw [if_neg htop] at h
              simp [pure, Except.pure] at h
          | null => simp [pyLower, pybind_error] at h
          | bool b => simp [pyLower, pybind_error] at h
          | num n => simp [pyLower, pybind_error] at h
          | arr xs => simp [pyLower, pybind_error] at h
          | obj fs => simp [pyLower, pybind_error] at h

theorem processResults_ok (items : List Json)
    (hok : ∀ i ∈ items, ∃ r, processItem i = .ok r) :
    processResults items = .ok (items.filterMap itemResult) := by
  induction items with
  | nil => rfl
  | cons i rest ih =>
    obtain ⟨r, hr⟩ := hok i (List.mem_cons_self i rest)
    have hrest := ih (fun x hx => hok x (List.mem_cons_of_mem _ hx))
    unfold processResults
    rw [hr, pybind_ok, hrest, pybind_ok]
    cases r with
    | none => simp [List.filterMap_cons, itemResult, hr]; rfl
    | some p => simp [List.filterMap_cons, itemResult, hr]; rfl

theorem processResults_middle (item : Json) (xs ys : List Json)
    (h : processItem item = .ok none) :
    processResults (xs ++ item :: ys) = processResults (xs ++ ys) := by
  induction xs with
  | nil =>
    simp only [List.nil_append]
    show processResults (item :: ys) = processResults ys
    have hstep : processResults (item :: ys) =
        (processItem item) >>= fun r => (processResults ys) >>= fun ps =>
          (match r with | none => pure ps | some p => pure (p :: ps)) := rfl
    rw [hstep, h, pybind_ok]
    cases hys : processResults ys with
    | error e => rw [pybind_error]
    | ok ps => rw [pybind_ok]; rfl
  | cons x rest ih =>
    simp only [List.cons_append]
    unfold processResults
    simp only [List.cons_append] at ih
    rw [ih]

theorem countOccAux_append (n x y : List Char) :
    countOccAux n (x ++ y) = cntFrom n x y + countOccAux n y := by
  induction x with
  | nil => simp [cntFrom]
  | cons c rest ih =>
    simp [countOccAux, cntFrom, ih, List.cons_append]
    omega

theorem countOcc_chainStr (n : List Char) (l : List String) :
    countOccAux n (chainStr l).data = cntSegs n l := by
  induction l with
  | nil => rfl
  | cons s rest ih =>
    simp [chainStr, cntSegs, String.data_append, countOccAux_append, ih]

/-- C1: a record that reaches the filter with journal display name `j`
contributes its projected paper to the list returned by `fetch_papers` if and
only if some allow-list entry, lowercased, is a substring of `j` lowercased
(so `Nature Communications`, `nature communications` and
`Super Nature Journal` all match the entry `Nature`). -/
theorem fetch_papers_filter_iff (items : List Json) (item : Json) (j : String)
    (hok : ∀ i ∈ items, ∃ r, processItem i = .ok r)
    (hmem : item ∈ items) (hj : hasJournal item j) :
    mkPaper item (.str j) ∈ fetch_papers (.ok (mkResults items)) ↔
      isTopJournal j = true := by
  have hfetch : fetch_papers (.ok (mkResults items)) = items.filterMap itemResult := by
    unfold fetch_papers
    rw [fetchCore_mkResults, processResults_ok items hok]
  rw [hfetch]
  constructor
  · intro hmem2
    obtain ⟨i, hi, hres⟩ := List.mem_filterMap.mp hmem2
    have hpi : processItem i = .ok (some (mkPaper item (.str j))) := by
      unfold itemResult at hres
      cases hp : processItem i with
      | error e => rw [hp] at hres; exact absurd hres (by simp)
      | ok r =>
        rw [hp] at hres
        cases r with
        | none => exact absurd hres (by simp)
        | some q =>
          have hq : some q = some (mkPaper item (Json.str j)) := hres
          rw [Option.some.inj hq]
    obtain ⟨j', hj', htop', _, _⟩ := processItem_some i _ hpi
    have hjj : j = j' := by simpa [mkPaper] using hj'
    rwa [← hjj] at htop'
  · intro htop
    apply List.mem_filterMap.mpr
    refine ⟨item, hmem, ?_⟩
    unfold itemResult
    rw [processItem_hasJournal item j hj, if_pos htop]

theorem fetch_papers_filter_iff_witness :
    mkPaper superNatureItem (.str "Super Nature Journal") ∈
      fetch_papers (.ok (mkResults [superNatureItem])) ∧
    isTopJournal "Super Nature Journal" = true := by
  refine ⟨?_, by decide⟩
  exact (fetch_papers_filter_iff [superNatureItem] superNatureItem "Super Nature Journal"
    (by intro i hi
        simp only [List.mem_singleton] at hi
        subst hi
        exact ⟨some (mkPaper superNatureItem (.str "Super Nature Journal")), rfl⟩)
    (by simp)
    ⟨.obj [("display_name", .str "Super Nature Journal")], rfl, rfl, rfl⟩).mpr (by decide)

/-- C9: when every record of the `results` array is processed without an
exception, the returned list is exactly the order-preserving projection
`filterMap itemResult` of that array — one entry per included record, in the
array's order, with no re-sorting and no duplication. -/
theorem fetch_papers_projection (items : List Json)
    (hok : ∀ i ∈ items, ∃ r, processItem i = .ok r) :
    fetch_papers (.ok (mkResults items)) = items.filterMap itemResult := by
  unfold fetch_papers
  rw [fetchCore_mkResults, processResults_ok items hok]

theorem fetch_papers_projection_witness :
    fetch_papers (.ok (mkResults [natureItem, labChipItem, superNatureItem])) =
      [natureItem, labChipItem, superNatureItem].filterMap itemResult := by
  apply fetch_papers_projection
  intro i hi
  simp only [List.mem_cons, List.mem_singleton, List.not_mem_nil, or_false] at hi
  rcases hi with h | h | h
  · subst h; exact ⟨some (mkPaper natureItem (.str "Nature Communications")), rfl⟩
  · subst h; exact ⟨none, rfl⟩
  · subst h; exact ⟨some (mkPaper superNatureItem (.str "Super Nature Journal")), rfl⟩

/-- C5 counterexample: the claim fails when the missing source descriptor
arises from `primary_location: null`.  With such a record in the batch, the
raised `AttributeError` aborts the loop and `fetch_papers` returns the empty
list, so the sibling `Nature Communications` record is lost rather than
processed. -/
theorem fetch_papers_sourceless_cex :
    fetch_papers (.ok (mkResults [natureItem, plNullItem])) = [] ∧
    fetch_papers (.ok (mkResults [natureItem])) =
      [mkPaper natureItem (.str "Nature Communications")] ∧
    fetch_papers (.ok (mkResults [natureItem, plNullItem])) ≠
      fetch_papers (.ok (mkResults [natureItem])) := by
  refine ⟨rfl, rfl, ?_⟩
  intro h
  rw [show fetch_papers (.ok (mkResults [natureItem, plNullItem])) = [] from rfl,
      show fetch_papers (.ok (mkResults [natureItem])) =
        [mkPaper natureItem (.str "Nature Communications")] from rfl] at h
  exact List.noConfusion h

/-- C5 (amended): when the record's source lookup itself succeeds and yields a
falsy value — `primary_location` absent, or a mapping without `source`, or a
null/falsy `source` — the record is skipped and the rest of the batch is
unaffected: the output equals that for the same response without the record. -/
theorem fetch_papers_sourceless_skip (item src : Json) (xs ys : List Json)
    (hsrc : getSource item = .ok src) (hfalsy : pyTruthy src = false) :
    fetch_papers (.ok (mkResults (xs ++ item :: ys))) =
      fetch_papers (.ok (mkResults (xs ++ ys))) := by
  have h := processItem_skip item src hsrc hfalsy
  unfold fetch_papers
  rw [fetchCore_mkResults, fetchCore_mkResults, processResults_middle item xs ys h]

theorem fetch_papers_sourceless_skip_witness :
    fetch_papers (.ok (mkResults [natureItem, noLocItem])) =
      fetch_papers (.ok (mkResults [natureItem])) := by
  have h := fetch_papers_sourceless_skip noLocItem (.obj []) [natureItem] [] rfl rfl
  simpa using h

/-- C10: every allow-list entry is non-empty and no non-empty string is a
substring of the empty string, so a record whose truthy source descriptor
yields the default empty journal name is excluded: it is skipped and the
output equals that for the response without it. -/
theorem fetch_papers_empty_journal (item src : Json) (xs ys : List Json)
    (hsrc : getSource item = .ok src) (htr : pyTruthy src = true)
    (hname : pyGet src "display_name" (.str "") = .ok (.str "")) :
    (∀ tj ∈ TARGET_JOURNALS, tj ≠ "") ∧ isTopJournal "" = false ∧
    processItem item = .ok none ∧
    fetch_papers (.ok (mkResults (xs ++ item :: ys))) =
      fetch_papers (.ok (mkResults (xs ++ ys))) := by
  have hskip : processItem item = .ok none := by
    rw [processItem_hasJournal item "" ⟨src, hsrc, htr, hname⟩]
    rw [show isTopJournal "" = false from by decide]
    simp
  refine ⟨by decide, by decide, hskip, ?_⟩
  unfold fetch_papers
  rw [fetchCore_mkResults, fetchCore_mkResults, processResults_middle item xs ys hskip]

theorem fetch_papers_empty_journal_witness :
    processItem noNameItem = .ok none ∧
    fetch_papers (.ok (mkResults [natureItem, noNameItem])) =
      fetch_papers (.ok (mkResults [natureItem])) := by
  have h := fetch_papers_empty_journal noNameItem (.obj [("id", .str "S123")])
    [natureItem] [] rfl rfl rfl
  exact ⟨h.2.2.1, by simpa using h.2.2.2⟩

/-- C3: `fetch_papers` is total, and whenever the request, the JSON parse or
any step of record processing raises, the `except` handler yields the empty
list (no partial results) together with exactly one diagnostic line. -/
theorem fetch_papers_error_total (resp : Except PyErr Json) (e : PyErr)
    (h : fetchCore resp = .error e) :
    fetch_papers resp = [] ∧ fetch_log resp = [errLine e] ∧
      (fetch_log resp).length = 1 := by
  unfold fetch_papers fetch_log
  rw [h]
  exact ⟨rfl, rfl, rfl⟩

theorem fetch_papers_error_total_witness :
    fetch_papers (.error (.requestError "connection refused")) = [] ∧
    fetch_log (.error (.requestError "connection refused")) =
      [errLine (.requestError "connection refused")] ∧
    (fetch_log (.error (.requestError "connection refused"))).length = 1 :=
  fetch_papers_error_total (.error (.requestError "connection refused"))
    (.requestError "connection refused") rfl

/-- C6: the request URL is exactly
`https://api.openalex.org/works?filter=default.search:<keyword>,from_publication_date:<ISO-date>&per-page=50&sort=publication_date:desc`
with the fixed keyword `microfluidic` and the ISO rendering of the current
date minus 7 days; concretely, for today = 2024-05-08 the lower bound is
2024-05-01. -/
theorem fetch_url_form :
    (∀ t : Nat, fetchUrl t =
      "https://api.openalex.org/works?filter=default.search:microfluidic,from_publication_date:" ++
        isoOfDays (t - 7) ++ "&per-page=50&sort=publication_date:desc") ∧
    isoOfDays 19851 = "2024-05-08" ∧
    fetchUrl 19851 =
      "https://api.openalex.org/works?filter=default.search:microfluidic,from_publication_date:2024-05-01&per-page=50&sort=publication_date:desc" := by
  refine ⟨?_, by decide, ?_⟩
  · intro t
    unfold fetchUrl buildUrl KEYWORDS
    rw [show "https://api.openalex.org/works?filter=default.search:" ++ "microfluidic" ++
        ",from_publication_date:" =
        "https://api.openalex.org/works?filter=default.search:microfluidic,from_publication_date:" from rfl]
  · rfl

/-- C2: for a non-empty paper list the rendered document is the fixed head,
the supplied date, and one card per paper in input order — each card holding
the paper's journal badge, date, a title anchor whose href is the paper's
link, and a read link — followed by the fixed tail; for the spec's sample
record the title anchor appears exactly once, and the card marker occurs once
per paper (1 for one paper, 2 for two).  The written file `index.html` holds
exactly this rendering. -/
theorem generate_html_cards :
    (∀ (papers : List Paper) (t : String), papers ≠ [] →
        renderPage papers t =
          headA ++ t ++ headB ++ ifA ++ String.join (papers.map cardBlock) ++ ifB ++ tailB) ∧
    countOcc sampleAnchor (renderPage [samplePaper] sampleToday) = 1 ∧
    countOcc cardMarker (renderPage [samplePaper] sampleToday) = 1 ∧
    countOcc cardMarker (renderPage [samplePaper, paper2] sampleToday) = 2 ∧
    (∀ (papers : List Paper) (d : Nat) (fs : FileSys),
        generate_html papers d fs "index.html" = some (renderPage papers (isoOfDays d))) := by
  have hdoc1 : renderPage [samplePaper] sampleToday =
      chainStr [headA1, headA2, headA3, "2024-05-01", headB, ifA, cardA,
        "Nature Communications", cardB, "2024-05-01", cardC,
        "https://doi.org/10.1000/x", cardD, "Chip Flow Study", cardE,
        "https://doi.org/10.1000/x", cardF, ifB, tailB] := by
    simp [renderPage, headA, cardBlock, samplePaper, sampleToday, jinjaShow, String.join,
      chainStr, String.append_assoc, String.append_empty, String.empty_append]
  have hdoc2 : renderPage [samplePaper, paper2] sampleToday =
      chainStr [headA1, headA2, headA3, "2024-05-01", headB, ifA, cardA,
        "Nature Communications", cardB, "2024-05-01", cardC,
        "https://doi.org/10.1000/x", cardD, "Chip Flow Study", cardE,
        "https://doi.org/10.1000/x", cardF, cardA, "Science Advances", cardB,
        "2024-05-02", cardC, "https://doi.org/10.1000/z", cardD,
        "Droplet Sorting", cardE, "https://doi.org/10.1000/z", cardF, ifB, tailB] := by
    simp [renderPage, headA, cardBlock, samplePaper, paper2, sampleToday, jinjaShow,
      String.join, chainStr, String.append_assoc, String.append_empty, String.empty_append]
  refine ⟨?_, ?_, ?_, ?_, fun _ _ _ => rfl⟩
  · intro papers t h
    cases papers with
    | nil => exact absurd rfl h
    | cons p rest =>
      simp [renderPage, String.append_assoc]
  · rw [countOcc, hdoc1, countOcc_chainStr]
    rfl
  · rw [countOcc, hdoc1, countOcc_chainStr]
    rfl
  · rw [countOcc, hdoc2, countOcc_chainStr]
    rfl

theorem generate_html_cards_witness :
    renderPage [samplePaper] sampleToday =
      headA ++ sampleToday ++ headB ++ ifA ++
        String.join ([samplePaper].map cardBlock) ++ ifB ++ tailB ∧
    countOcc sampleAnchor (renderPage [samplePaper] sampleToday) = 1 :=
  ⟨generate_html_cards.1 [samplePaper] sampleToday (by simp), generate_html_cards.2.1⟩

/-- C4: for the empty paper list the rendered document is the fixed head, the
supplied date, the single no-papers placeholder block and the fixed tail; it
contains the placeholder exactly once and zero card blocks. -/
theorem generate_html_empty :
    (∀ t : String, renderPage [] t = headA ++ t ++ headB ++ elseBlock ++ tailB) ∧
    countOcc noPapersMarker (renderPage [] sampleToday) = 1 ∧
    countOcc cardMarker (renderPage [] sampleToday) = 0 ∧
    (∀ (d : Nat) (fs : FileSys),
        generate_html [] d fs "index.html" = some (renderPage [] (isoOfDays d))) := by
  have hdoc : renderPage [] sampleToday =
      chainStr [headA1, headA2, headA3, "2024-05-01", headB, elseBlock, tailB] := by
    simp [renderPage, headA, sampleToday, chainStr, String.append_assoc, String.append_empty]
  refine ⟨?_, ?_, ?_, fun _ _ => rfl⟩
  · intro t
    simp [renderPage, String.append_assoc]
  · rw [countOcc, hdoc, countOcc_chainStr]
    rfl
  · rw [countOcc, hdoc, countOcc_chainStr]
    rfl

/-- C7: `generate_html` writes the full rendering to the fixed name
`index.html`, the stored content is independent of whatever the file held
before (full replacement), and every other file is untouched. -/
theorem generate_html_overwrite (papers : List Paper) (d : Nat) (fs fs' : FileSys) :
    generate_html papers d fs "index.html" = some (renderPage papers (isoOfDays d)) ∧
    generate_html papers d fs "index.html" = generate_html papers d fs' "index.html" ∧
    (∀ n, n ≠ "index.html" → generate_html papers d fs n = fs n) := by
  refine ⟨rfl, rfl, ?_⟩
  intro n hn
  simp [generate_html, pyWriteFile, hn]

theorem generate_html_overwrite_witness :
    generate_html [] 0 fsEmpty "index.html" = some (renderPage [] (isoOfDays 0)) ∧
    generate_html [] 0 fsEmpty "notes.txt" = fsEmpty "notes.txt" :=
  ⟨(generate_html_overwrite [] 0 fsEmpty fsEmpty).1,
   (generate_html_overwrite [] 0 fsEmpty fsEmpty).2.2 "notes.txt" (by decide)⟩

/-- C8: the render path of `generate_html` contains no handler: an exception
in either of its two effectful steps — template rendering or the file write —
propagates out of the function unchanged; on success the steps compose to
exactly the `generate_html` state update. -/
theorem generate_html_propagate (r : Except PyErr String)
    (w : String → Except PyErr FileSys) (e : PyErr) :
    (r = .error e → generate_htmlRun r w = .error e) ∧
    (∀ h, r = .ok h → w h = .error e → generate_htmlRun r w = .error e) ∧
    (∀ (papers : List Paper) (d : Nat) (fs : FileSys),
        generate_htmlRun (.ok (renderPage papers (isoOfDays d)))
          (fun c => .ok (pyWriteFile fs "index.html" c)) =
          .ok (generate_html papers d fs)) := by
  refine ⟨?_, ?_, fun _ _ _ => rfl⟩
  · intro h; subst h; rfl
  · intro h hr hw
    subst hr
    show (Except.ok h >>= fun c => w c) = Except.error e
    rw [pybind_ok, hw]

theorem generate_html_propagate_witness :
    generate_htmlRun (.error .typeError)
      (fun c => .ok (pyWriteFile fsEmpty "index.html" c)) = .error .typeError ∧
    generate_htmlRun (.ok "doc") (fun _ => .error (.requestError "disk full")) =
      .error (.requestError "disk full") :=
  ⟨(generate_html_propagate (.error .typeError)
      (fun c => .ok (pyWriteFile fsEmpty "index.html" c)) .typeError).1 rfl,
   (generate_html_propagate (.ok "doc") (fun _ => .error (.requestError "disk full"))
      (.requestError "disk full")).2.1 "doc" rfl rfl⟩
